import Mathlib

/-!
Verification of the convoy Kafka integration layer
(`src/integration/kafka.rs`): a shallow embedding of the
ownership-safe stream/message wrappers, the incoming-message
accessors (`headers`, `payload`, `key`, `ack`, `nack`, `reject`,
`make_span`) and the producer `send` path (header merge, topic
override, bounded-timeout dispatch), together with theorems
settling the specified properties.

Strings that cross the byte boundary (message payloads, keys,
header values) are modelled as `List Nat` byte sequences; text is
Lean `String`.
-/

set_option autoImplicit false

namespace Convoy

/-! ## Byte-level text decoding

Model of Rust `std::str::from_utf8`: accepts exactly well-formed
UTF-8 (continuation bytes in `0x80..=0xBF`, no overlong encodings,
no surrogates, code points at most `0x10FFFF`). -/

/-- A UTF-8 continuation byte lies in `0x80..=0xBF`. -/
def isCont (b : Nat) : Bool := 0x80 ≤ b && b ≤ 0xBF

/-- Decode a byte sequence as UTF-8 code points, `none` on any
malformed input.  Mirrors the validation of Rust `str::from_utf8`. -/
def utf8Decode : List Nat → Option (List Char)
  | [] => some []
  | b0 :: r =>
    if b0 ≤ 0x7F then
      (utf8Decode r).map (fun cs => Char.ofNat b0 :: cs)
    else if 0xC2 ≤ b0 && b0 ≤ 0xDF then
      match r with
      | b1 :: r1 =>
        if isCont b1 then
          (utf8Decode r1).map
            (fun cs => Char.ofNat ((b0 - 0xC0) * 0x40 + (b1 - 0x80)) :: cs)
        else none
      | [] => none
    else if 0xE0 ≤ b0 && b0 ≤ 0xEF then
      match r with
      | b1 :: b2 :: r2 =>
        let okB1 :=
          if b0 == 0xE0 then 0xA0 ≤ b1 && b1 ≤ 0xBF
          else if b0 == 0xED then 0x80 ≤ b1 && b1 ≤ 0x9F
          else isCont b1
        if okB1 && isCont b2 then
          (utf8Decode r2).map
            (fun cs =>
              Char.ofNat ((b0 - 0xE0) * 0x1000 + (b1 - 0x80) * 0x40 + (b2 - 0x80)) :: cs)
        else none
      | _ => none
    else if 0xF0 ≤ b0 && b0 ≤ 0xF4 then
      match r with
      | b1 :: b2 :: b3 :: r3 =>
        let okB1 :=
          if b0 == 0xF0 then 0x90 ≤ b1 && b1 ≤ 0xBF
          else if b0 == 0xF4 then 0x80 ≤ b1 && b1 ≤ 0x8F
          else isCont b1
        if okB1 && isCont b2 && isCont b3 then
          (utf8Decode r3).map
            (fun cs =>
              Char.ofNat ((b0 - 0xF0) * 0x40000 + (b1 - 0x80) * 0x1000 +
                (b2 - 0x80) * 0x40 + (b3 - 0x80)) :: cs)
        else none
      | _ => none
    else none

/-- Model of Rust `std::str::from_utf8(..).ok()`: the decoded text,
or `none` when the bytes are not valid UTF-8. -/
def fromUtf8 (bs : List Nat) : Option String :=
  (utf8Decode bs).map String.mk

/-! ## RawHeaders

Modelled from the spec: `crate::message::RawHeaders` is not under
`src/`; per §3 it is a "mapping of header key → header value (both
text), insertion order irrelevant, keys unique (last write wins on
merge)".  We model it as an association list whose `insert`
replaces the binding for an existing key (Rust `HashMap::insert`)
and whose `extend` folds `insert` over the other map
(`HashMap::extend`). -/
def RawHeaders : Type := List (String × String)

instance : DecidableEq RawHeaders := by
  unfold RawHeaders; infer_instance

instance : Membership (String × String) RawHeaders := by
  unfold RawHeaders; infer_instance

instance : EmptyCollection RawHeaders := ⟨([] : List (String × String))⟩

namespace RawHeaders

/-- Modelled from the spec: `HashMap::insert` — replace the binding
for the key when present, append a fresh binding otherwise. -/
def insert : RawHeaders → String → String → RawHeaders
  | [], k, v => [(k, v)]
  | p :: t, k, v => if p.1 == k then (k, v) :: t else p :: insert t k v

/-- Modelled from the spec: map lookup (first binding with the key). -/
def lookup : RawHeaders → String → Option String
  | [], _ => none
  | p :: t, k => if p.1 == k then some p.2 else lookup t k

/-- Modelled from the spec: `HashMap::extend` — insert every
binding of `other` into `m`, so `other` wins on key collision. -/
def extend (m other : RawHeaders) : RawHeaders :=
  other.foldl (fun acc kv => acc.insert kv.1 kv.2) m

/-- Modelled from the spec: `collect::<RawHeaders>()` — build a map
from a sequence of pairs by repeated insertion into the empty map. -/
def collect (l : List (String × String)) : RawHeaders :=
  l.foldl (fun acc kv => acc.insert kv.1 kv.2) ([] : RawHeaders)

/-- The binding for `k` contributed by the LAST pair of `l` with key
`k`, if any: the "last write wins" reading of a pair sequence. -/
def lookupLast (l : List (String × String)) (k : String) : Option String :=
  (l.reverse.find? (fun p => p.1 == k)).map (fun p => p.2)

end RawHeaders

/-! ## Messages (rdkafka model)

`BorrowedMessage` data as surfaced through the rdkafka `Message`
trait: topic, partition, offset, optional key bytes, optional
payload bytes, optional header section. -/

/-- One raw Kafka header: a text key and optional value bytes. -/
structure KHeader where
  key : String
  value : Option (List Nat)
deriving DecidableEq, Repr

/-- The observable fields of an rdkafka `BorrowedMessage`. -/
structure KMessage where
  topic : String
  partition : Int
  offset : Int
  key : Option (List Nat)
  payload : Option (List Nat)
  headers : Option (List KHeader)
deriving DecidableEq, Repr

/-- rdkafka `Message::payload_len`: length of the payload, `0` when
absent. -/
def KMessage.payloadLen (m : KMessage) : Nat :=
  (m.payload.map List.length).getD 0

/-! ## Destruction order (`Drop` impls)

`RdKafkaMessageStream` and `RdKafkaOwnedMessage` hold a borrowed
component (`stream` / `message`) and the consumer-handle clone it
was derived from, both in `ManuallyDrop` so the `Drop` impl fixes
the release order explicitly.  We embed each `Drop` body as the
trace of `ManuallyDrop::drop` actions it executes, in program
order.  An exit path that unwinds after `k` actions observes the
length-`k` initial segment of the trace (once an action ran it
cannot be undone), so quantifying over `List.take n` covers normal
drop and every panic-unwind point. -/

/-- A single `ManuallyDrop::drop` action inside a `Drop` impl. -/
inductive DropAction where
  | dropStream
  | dropMessage
  | dropConsumer
deriving DecidableEq, Repr

/-- The `Drop` impl for `RdKafkaMessageStream` (kafka.rs:50-60): drop the
stream first, then the consumer-handle clone. -/
def rdKafkaMessageStreamDropTrace : List DropAction :=
  [DropAction.dropStream, DropAction.dropConsumer]

/-- The `Drop` impl for `RdKafkaOwnedMessage` (kafka.rs:107-117): drop the
message first, then the consumer-handle clone. -/
def rdKafkaOwnedMessageDropTrace : List DropAction :=
  [DropAction.dropMessage, DropAction.dropConsumer]

/-! ## Consumer state and acknowledgement

The `StreamConsumer` resource itself is an external rdkafka
collaborator; following the spec (§3 `ConsumerHandle`, §4.2, and
the glossary's "Commit/acknowledge"), we model its observable state
as a liveness flag plus a log of committed offsets, and
`Consumer::commit_message(&msg, CommitMode::Async)` as recording
offset `msg.offset + 1` for the message's topic-partition —
failing when the resource has been invalidated. -/

/-- rdkafka errors, as far as this layer distinguishes them. -/
inductive KafkaError where
  | consumerInvalid
  | messageTimedOut
  | transport (code : Nat)
deriving DecidableEq, Repr

/-- rdkafka `CommitMode`. -/
inductive CommitMode where
  | sync
  | async
deriving DecidableEq, Repr

/-- Observable state of the shared consumer resource. -/
structure ConsumerState where
  alive : Bool
  committed : List ((String × Int) × Int)
deriving DecidableEq, Repr

/-- Model of `Consumer::commit_message`: record the
next-to-consume offset `m.offset + 1` for the message's
topic-partition; fail when the resource is invalidated. -/
def ConsumerState.commitMessage (s : ConsumerState) (m : KMessage)
    (_mode : CommitMode) : Except KafkaError ConsumerState :=
  if s.alive then
    .ok { s with committed := ((m.topic, m.partition), m.offset + 1) :: s.committed }
  else
    .error .consumerInvalid

/-- Embedding of `RdKafkaOwnedMessage` as it matters for the `IncomingMessage`
impl: the (lifetime-extended) borrowed message; the consumer handle
is passed as explicit `ConsumerState`. -/
structure RdKafkaOwnedMessage where
  message : KMessage
deriving DecidableEq, Repr

namespace RdKafkaOwnedMessage

/-- Embeds `IncomingMessage::ack` (kafka.rs:183-186): commit the message
asynchronously through the held consumer handle. -/
def ack (self : RdKafkaOwnedMessage) (consumer : ConsumerState) :
    Except KafkaError ConsumerState :=
  consumer.commitMessage self.message CommitMode.async

/-- Embeds `IncomingMessage::nack` (kafka.rs:188-190): `Ok(())`, nothing
else. -/
def nack (_self : RdKafkaOwnedMessage) (consumer : ConsumerState) :
    Except KafkaError ConsumerState :=
  .ok consumer

/-- Embeds `IncomingMessage::reject` (kafka.rs:192-195): commit the
message asynchronously through the held consumer handle. -/
def reject (self : RdKafkaOwnedMessage) (consumer : ConsumerState) :
    Except KafkaError ConsumerState :=
  consumer.commitMessage self.message CommitMode.async

/-- Embeds `IncomingMessage::headers` (kafka.rs:155-173): rebuild the
header mapping from the raw header list, keeping an entry only when
its value is present and decodes as UTF-8 text; an absent header
section gives the empty mapping (`unwrap_or_default`). -/
def headers (self : RdKafkaOwnedMessage) : RawHeaders :=
  (self.message.headers.map (fun hs =>
    RawHeaders.collect (hs.filterMap (fun h =>
      h.value.bind (fun v => (fromUtf8 v).map (fun s => (h.key, s))))))).getD ∅

/-- Embeds `IncomingMessage::payload` (kafka.rs:175-177): the payload
bytes, empty when absent (`unwrap_or_default`). -/
def payload (self : RdKafkaOwnedMessage) : List Nat :=
  self.message.payload.getD []

/-- Embeds `IncomingMessage::key` (kafka.rs:179-181): the optional key
bytes, unmodified. -/
def key (self : RdKafkaOwnedMessage) : Option (List Nat) :=
  self.message.key

end RdKafkaOwnedMessage

/-! ## Tracing span (consumer side) -/

/-- The attribute set of the span built by
`IncomingMessage::make_span` (kafka.rs:197-214).  The two
`tracing::field::Empty` slots are `none`. -/
structure ConsumerSpan where
  otelName : String
  otelKind : String
  otelStatusCode : Option String
  messagingSystem : String
  messagingOperation : String
  payloadSizeBytes : Nat
  sourcePartition : Int
  messageKey : String
  messageOffset : Int
  convoyKind : Option String
deriving DecidableEq, Repr

/-- Embeds `IncomingMessage::make_span` (kafka.rs:197-214), field by
field. -/
def RdKafkaOwnedMessage.makeSpan (self : RdKafkaOwnedMessage) : ConsumerSpan :=
  { otelName := self.message.topic ++ " receive"
    otelKind := "CONSUMER"
    otelStatusCode := none
    messagingSystem := "kafka"
    messagingOperation := "receive"
    payloadSizeBytes := self.message.payloadLen
    sourcePartition := self.message.partition
    messageKey := (self.message.key.bind fromUtf8).getD ""
    messageOffset := self.message.offset
    convoyKind := none }

/-! ## Producer

`KafkaProducerOptions` and `KafkaProducer::send`
(kafka.rs:217-296).  The rdkafka `FutureProducer` is an external
collaborator: we model it as a function from the built record and
the send timeout to either a `(partition, offset)` confirmation or
the native error paired with the returned message, exactly the
shape of `FutureProducer::send`'s `Result`. -/

/-- rdkafka `Duration` as used here: whole seconds. -/
structure Duration where
  secs : Nat
deriving DecidableEq, Repr

/-- Embeds `Duration::from_secs`. -/
def Duration.fromSecs (n : Nat) : Duration := ⟨n⟩

/-- rdkafka `OwnedHeaders`: the ordered outgoing header list;
`insert` appends one `Header { key, value }`. -/
def OwnedHeaders : Type := List (String × Option String)

instance : DecidableEq OwnedHeaders := by
  unfold OwnedHeaders; infer_instance

instance : Membership (String × Option String) OwnedHeaders := by
  unfold OwnedHeaders; infer_instance

/-- rdkafka `OwnedHeaders::new_with_capacity`: an empty list (the
capacity is only an allocation hint). -/
def OwnedHeaders.newWithCapacity (_n : Nat) : OwnedHeaders :=
  ([] : List (String × Option String))

/-- rdkafka `OwnedHeaders::insert`: append the header. -/
def OwnedHeaders.insertHeader (hs : OwnedHeaders) (h : String × Option String) :
    OwnedHeaders :=
  List.append hs [h]

/-- The record handed to the transport: `FutureRecord::to(topic)
.key(key).headers(headers).payload(payload)` (kafka.rs:286-289). -/
structure FutureRecord where
  topic : String
  key : String
  headers : OwnedHeaders
  payload : List Nat
deriving DecidableEq

/-- Embeds `KafkaProducerOptions` (kafka.rs:217-221). -/
structure KafkaProducerOptions where
  topic_override : Option String
  additional_headers : RawHeaders
deriving DecidableEq

/-- The derived `Default` value of `KafkaProducerOptions`: no override,
empty additional headers. -/
def KafkaProducerOptions.default : KafkaProducerOptions :=
  { topic_override := none, additional_headers := ∅ }

/-- Embeds `KafkaProducerOptions::override_topic` (kafka.rs:224-229). -/
def KafkaProducerOptions.overrideTopic (self : KafkaProducerOptions)
    (topic : String) : KafkaProducerOptions :=
  { self with topic_override := some topic }

/-- Embeds `KafkaProducerOptions::add_header` (kafka.rs:231-238). -/
def KafkaProducerOptions.addHeader (self : KafkaProducerOptions)
    (key value : String) : KafkaProducerOptions :=
  { self with additional_headers := self.additional_headers.insert key value }

/-- Embeds `KafkaProducer` (kafka.rs:241-245): the transport function
modelling the rdkafka `FutureProducer`, and the configured default
topic. -/
structure KafkaProducer where
  producer : FutureRecord → Duration → Except (KafkaError × FutureRecord) (Int × Int)
  topic : String

namespace KafkaProducer

/-- Step 1 of `send` (kafka.rs:271): `headers.extend(additional_headers)` —
options headers merged in, winning on key collision. -/
def mergedHeaders (headers : RawHeaders) (options : KafkaProducerOptions) :
    RawHeaders :=
  headers.extend options.additional_headers

/-- Step 2 of `send` (kafka.rs:273):
`topic_override.as_deref().unwrap_or(self.topic)`. -/
def effectiveTopic (self : KafkaProducer) (options : KafkaProducerOptions) :
    String :=
  options.topic_override.getD self.topic

/-- Step 3 of `send` (kafka.rs:275-284): fold the merged mapping
into an `OwnedHeaders` value, one `insert` per entry. -/
def outgoingHeaders (merged : RawHeaders) : OwnedHeaders :=
  List.foldl
    (fun (hs : OwnedHeaders) (kv : String × String) =>
      hs.insertHeader (kv.1, some kv.2))
    (OwnedHeaders.newWithCapacity (List.length merged)) merged

/-- The `FutureRecord` built by `send` before dispatch
(kafka.rs:266-289). -/
def sendRecord (self : KafkaProducer) (key : String) (headers : RawHeaders)
    (payload : List Nat) (options : KafkaProducerOptions) : FutureRecord :=
  { topic := self.effectiveTopic options
    key := key
    headers := outgoingHeaders (mergedHeaders headers options)
    payload := payload }

/-- Embeds `Producer::send` (kafka.rs:259-296): build the record, dispatch
it with a 10-second timeout, keep only the confirmation
(`map(|_| ())`) and unwrap the error pair (`map_err(|err| err.0)`). -/
def send (self : KafkaProducer) (key : String) (headers : RawHeaders)
    (payload : List Nat) (options : KafkaProducerOptions) :
    Except KafkaError Unit :=
  match self.producer (self.sendRecord key headers payload options)
      (Duration.fromSecs 10) with
  | .ok _ => .ok ()
  | .error err => .error err.1

end KafkaProducer

/-! ## Spec-side definitions

Written from the spec's words, for comparison against the embedded
code. -/

/-- The header entries the spec says `headers()` keeps (§4.2): drop
every entry whose value is absent or not valid text, keep every
other entry unchanged, with its value as the decoded text. -/
def specValidEntries (hs : List KHeader) : List (String × String) :=
  (hs.filter (fun h => (h.value.bind fromUtf8).isSome)).map
    (fun h => (h.key, (h.value.bind fromUtf8).getD ""))

/-! ## Concrete sample values (used by the witness theorems) -/

/-- A sample message carrying a decodable key, a payload, and a
header section with one valid, one non-text and one value-less
entry. -/
def msgWithHeaders : KMessage :=
  { topic := "orders", partition := 0, offset := 5, key := some [0x6B, 0x31],
    payload := some [0x70, 0x71], headers :=
      some [⟨"a", some [0x6F, 0x6B]⟩, ⟨"b", some [0xFF]⟩, ⟨"c", none⟩] }

/-- A sample message with no key, no payload and no header section. -/
def msgBare : KMessage :=
  { topic := "orders", partition := 1, offset := 7, key := none, payload := none,
    headers := none }

/-- A transport that confirms every record. -/
def okTransport : FutureRecord → Duration → Except (KafkaError × FutureRecord) (Int × Int) :=
  fun _ _ => .ok (0, 42)

/-- A transport that times out on every record, handing the record
back with the error, like rdkafka's `(KafkaError, OwnedMessage)`. -/
def timedOutTransport : FutureRecord → Duration → Except (KafkaError × FutureRecord) (Int × Int) :=
  fun r _ => .error (KafkaError.messageTimedOut, r)

/-- A producer over the confirming transport, default topic `"orders"`. -/
def demoProducerOk : KafkaProducer := ⟨okTransport, "orders"⟩

/-- A producer over the timing-out transport, default topic `"orders"`. -/
def demoProducerTimedOut : KafkaProducer := ⟨timedOutTransport, "orders"⟩

/-! ## Supporting lemmas -/

namespace RawHeaders

theorem lookup_insert (m : RawHeaders) (k v k' : String) :
    (m.insert k v).lookup k' = if k = k' then some v else m.lookup k' := by
  induction m with
  | nil => simp [insert, lookup, beq_iff_eq]
  | cons p t ih =>
    simp only [insert]
    by_cases h : p.1 = k
    · simp only [h, beq_self_eq_true, if_true, lookup, beq_iff_eq]
      split_ifs <;> simp_all [lookup]
    · simp only [beq_iff_eq, h, if_false, lookup, ih]
      split_ifs <;> simp_all

theorem lookupLast_cons (a : String × String) (t : List (String × String)) (k : String) :
    lookupLast (a :: t) k =
      match lookupLast t k with
      | some v => some v
      | none => if a.1 = k then some a.2 else none := by
  simp only [lookupLast, List.reverse_cons, List.find?_append]
  cases h : List.find? (fun p => p.1 == k) t.reverse with
  | none =>
    by_cases hk : a.1 = k
    · simp [h, List.find?, hk]
    · have hb : (a.1 == k) = false := beq_eq_false_iff_ne.mpr hk
      simp [h, List.find?, hb, hk]
  | some p => simp [h]

theorem lookup_extend (m : RawHeaders) (l : List (String × String)) (k : String) :
    (m.extend l).lookup k =
      match lookupLast l k with
      | some v => some v
      | none => m.lookup k := by
  induction l generalizing m with
  | nil => simp [extend, lookupLast, List.find?]
  | cons a t ih =>
    have hstep : extend m (a :: t) = extend (m.insert a.1 a.2) t := rfl
    rw [hstep, ih, lookupLast_cons]
    cases h : lookupLast t k with
    | some v => simp
    | none => rw [lookup_insert]; by_cases hk : a.1 = k <;> simp [hk]

end RawHeaders

theorem outgoingHeaders_eq_map (l : RawHeaders) :
    KafkaProducer.outgoingHeaders l =
      List.map (fun kv : String × String => (kv.1, some kv.2)) l := by
  have h : ∀ (acc : List (String × Option String)) (l : List (String × String)),
      List.foldl
        (fun (hs : OwnedHeaders) (kv : String × String) =>
          hs.insertHeader (kv.1, some kv.2)) acc l =
        List.append acc (List.map (fun kv : String × String => (kv.1, some kv.2)) l) := by
    intro acc l
    induction l generalizing acc with
    | nil => simp
    | cons a t ih =>
      simp only [List.foldl_cons, List.map_cons]
      rw [ih]
      simp [OwnedHeaders.insertHeader]
  simpa [KafkaProducer.outgoingHeaders, OwnedHeaders.newWithCapacity] using h [] l

theorem filterMap_decode_eq_specValidEntries (hs : List KHeader) :
    hs.filterMap
        (fun h => h.value.bind (fun v => (fromUtf8 v).map (fun s => (h.key, s))))
      = specValidEntries hs := by
  induction hs with
  | nil => rfl
  | cons h t ih =>
    simp only [specValidEntries] at ih ⊢
    cases hv : h.value with
    | none => simp [List.filterMap_cons, List.filter_cons, hv, ih]
    | some v =>
      cases hd : fromUtf8 v <;>
        simp [List.filterMap_cons, List.filter_cons, hv, hd, ih]

theorem payloadLen_eq_payload_length (m : RdKafkaOwnedMessage) :
    m.message.payloadLen = m.payload.length := by
  cases h : m.message.payload <;>
    simp [KMessage.payloadLen, RdKafkaOwnedMessage.payload, h]

/-! ## Claim theorems -/

/-- Claim C1: for both wrapped values (`RdKafkaMessageStream` and
`RdKafkaOwnedMessage`), on every exit path of the `Drop` impl —
modelled as every initial segment of the drop-action trace, which
covers normal completion and unwinding at any point — whenever the
consumer-handle clone has been released, the borrowed stream/message
component was released strictly earlier. -/
theorem dropOrder_borrowed_before_handle (n : Nat) :
    (DropAction.dropConsumer ∈ rdKafkaMessageStreamDropTrace.take n →
      ∃ i j : Nat, i < j ∧
        (rdKafkaMessageStreamDropTrace.take n)[i]? = some DropAction.dropStream ∧
        (rdKafkaMessageStreamDropTrace.take n)[j]? = some DropAction.dropConsumer) ∧
    (DropAction.dropConsumer ∈ rdKafkaOwnedMessageDropTrace.take n →
      ∃ i j : Nat, i < j ∧
        (rdKafkaOwnedMessageDropTrace.take n)[i]? = some DropAction.dropMessage ∧
        (rdKafkaOwnedMessageDropTrace.take n)[j]? = some DropAction.dropConsumer) := by
  match n with
  | 0 =>
    constructor <;> intro h <;>
      simp [rdKafkaMessageStreamDropTrace, rdKafkaOwnedMessageDropTrace] at h
  | 1 =>
    constructor <;> intro h <;>
      simp [rdKafkaMessageStreamDropTrace, rdKafkaOwnedMessageDropTrace,
        List.take] at h
  | (k + 2) =>
    refine ⟨fun _ => ⟨0, 1, Nat.zero_lt_one, ?_, ?_⟩,
      fun _ => ⟨0, 1, Nat.zero_lt_one, ?_, ?_⟩⟩ <;>
      simp [rdKafkaMessageStreamDropTrace, rdKafkaOwnedMessageDropTrace,
        List.take]

/-- Witness for C1, at the full drop trace (`n = 2`). -/
theorem dropOrder_borrowed_before_handle_witness :
    ∃ i j : Nat, i < j ∧
      (rdKafkaMessageStreamDropTrace.take 2)[i]? = some DropAction.dropStream ∧
      (rdKafkaMessageStreamDropTrace.take 2)[j]? = some DropAction.dropConsumer :=
  (dropOrder_borrowed_before_handle 2).1 (by decide)

/-- Claim C2: `reject()` performs exactly the commit call `ack()`
performs — the same `commit_message(message, Async)` against the
held consumer handle — so the two agree on every message and every
consumer state. -/
theorem reject_identical_to_ack (m : RdKafkaOwnedMessage) (s : ConsumerState) :
    m.reject s = m.ack s ∧
    m.ack s = s.commitMessage m.message CommitMode.async :=
  ⟨rfl, rfl⟩

/-- Claim C3: `nack()` always returns success and leaves the
consumer state untouched — no commit, no state change. -/
theorem nack_always_ok_no_side_effect (m : RdKafkaOwnedMessage) (s : ConsumerState) :
    m.nack s = .ok s :=
  rfl

/-- Claim C8: `payload()` returns the message body bytes, and an
absent payload yields the empty byte sequence, not an error. -/
theorem payload_bytes_or_empty (m : RdKafkaOwnedMessage) :
    (∀ b : List Nat, m.message.payload = some b → m.payload = b) ∧
    (m.message.payload = none → m.payload = []) := by
  constructor <;> intro <;> simp_all [RdKafkaOwnedMessage.payload]

/-- Witness for C8, on a message with a payload and one without. -/
theorem payload_bytes_or_empty_witness :
    RdKafkaOwnedMessage.payload ⟨msgWithHeaders⟩ = [0x70, 0x71] ∧
    RdKafkaOwnedMessage.payload ⟨msgBare⟩ = [] :=
  ⟨(payload_bytes_or_empty ⟨msgWithHeaders⟩).1 [0x70, 0x71] rfl,
    (payload_bytes_or_empty ⟨msgBare⟩).2 rfl⟩


/-- Claim C4: `headers()` is the mapping built from the raw header
list with every entry whose value is absent or not valid UTF-8 text
excluded and every other entry included unchanged; a message with
no header section yields the empty mapping rather than an error. -/
theorem headers_filters_invalid_entries (m : RdKafkaOwnedMessage) :
    (∀ hs : List KHeader, m.message.headers = some hs →
      m.headers = RawHeaders.collect (specValidEntries hs)) ∧
    (m.message.headers = none → m.headers = ∅) := by
  constructor
  · intro hs h
    simp [RdKafkaOwnedMessage.headers, h, filterMap_decode_eq_specValidEntries]
  · intro h
    simp [RdKafkaOwnedMessage.headers, h]

/-- Witness for C4: a header section with a valid, a non-text and a
value-less entry, and a message with no header section at all. -/
theorem headers_filters_invalid_entries_witness :
    RdKafkaOwnedMessage.headers ⟨msgWithHeaders⟩ =
      RawHeaders.collect (specValidEntries
        [⟨"a", some [0x6F, 0x6B]⟩, ⟨"b", some [0xFF]⟩, ⟨"c", none⟩]) ∧
    RdKafkaOwnedMessage.headers ⟨msgBare⟩ = ∅ :=
  ⟨(headers_filters_invalid_entries ⟨msgWithHeaders⟩).1 _ rfl,
    (headers_filters_invalid_entries ⟨msgBare⟩).2 rfl⟩

/-- Claim C9: `make_span()` carries the documented attribute set —
name `"<topic> receive"`, kind CONSUMER, operation receive, payload
size in bytes, source partition, message offset, and the key as
text with the empty string for an absent or non-text key; it is a
pure function of the message and touches no consumer state. -/
theorem makeSpan_attributes (m : RdKafkaOwnedMessage) :
    m.makeSpan.otelName = m.message.topic ++ " receive" ∧
    m.makeSpan.otelKind = "CONSUMER" ∧
    m.makeSpan.messagingSystem = "kafka" ∧
    m.makeSpan.messagingOperation = "receive" ∧
    m.makeSpan.payloadSizeBytes = m.payload.length ∧
    m.makeSpan.sourcePartition = m.message.partition ∧
    m.makeSpan.messageOffset = m.message.offset ∧
    (m.message.key = none → m.makeSpan.messageKey = "") ∧
    (∀ k : List Nat, m.message.key = some k → fromUtf8 k = none →
      m.makeSpan.messageKey = "") ∧
    (∀ (k : List Nat) (s : String), m.message.key = some k → fromUtf8 k = some s →
      m.makeSpan.messageKey = s) := by
  refine ⟨rfl, rfl, rfl, rfl, payloadLen_eq_payload_length m, rfl, rfl, ?_, ?_, ?_⟩ <;>
    intros <;> simp_all [RdKafkaOwnedMessage.makeSpan]

/-- Witness for C9: a message whose key decodes to `"k1"` and a
message with no key. -/
theorem makeSpan_attributes_witness :
    (RdKafkaOwnedMessage.makeSpan ⟨msgWithHeaders⟩).messageKey = "k1" ∧
    (RdKafkaOwnedMessage.makeSpan ⟨msgBare⟩).messageKey = "" :=
  ⟨(makeSpan_attributes ⟨msgWithHeaders⟩).2.2.2.2.2.2.2.2.2 [0x6B, 0x31] "k1" rfl
      (by decide),
    (makeSpan_attributes ⟨msgBare⟩).2.2.2.2.2.2.2.1 rfl⟩

/-- Claim C6: the effective destination of `send` is the topic
override from the options when present, and the producer's
configured default topic otherwise. -/
theorem send_destination_override (p : KafkaProducer) (key : String)
    (hs : RawHeaders) (pl : List Nat) (opts : KafkaProducerOptions) :
    (∀ t : String, opts.topic_override = some t →
      (p.sendRecord key hs pl opts).topic = t) ∧
    (opts.topic_override = none → (p.sendRecord key hs pl opts).topic = p.topic) := by
  constructor <;> intros <;>
    simp_all [KafkaProducer.sendRecord, KafkaProducer.effectiveTopic]

/-- Witness for C6: default topic `"orders"`, override
`"orders-retry"` versus no override. -/
theorem send_destination_override_witness :
    (demoProducerOk.sendRecord "k" ∅ []
      (KafkaProducerOptions.default.overrideTopic "orders-retry")).topic =
        "orders-retry" ∧
    (demoProducerOk.sendRecord "k" ∅ [] KafkaProducerOptions.default).topic =
      "orders" :=
  ⟨(send_destination_override demoProducerOk "k" ∅ [] _).1 "orders-retry" rfl,
    (send_destination_override demoProducerOk "k" ∅ [] _).2 rfl⟩


/-- Claim C5: `send` merges `options.additional_headers` into the
base headers with the options winning on key collision (last write
wins), and the outgoing header representation carries exactly the
merged entries. -/
theorem send_merge_options_precedence (p : KafkaProducer) (key : String)
    (hs : RawHeaders) (pl : List Nat) (opts : KafkaProducerOptions) :
    (∀ k : String,
      (KafkaProducer.mergedHeaders hs opts).lookup k =
        match RawHeaders.lookupLast opts.additional_headers k with
        | some v => some v
        | none => hs.lookup k) ∧
    (∀ k v : String,
      (k, some v) ∈ (p.sendRecord key hs pl opts).headers ↔
        (k, v) ∈ KafkaProducer.mergedHeaders hs opts) := by
  constructor
  · intro k
    exact RawHeaders.lookup_extend hs opts.additional_headers k
  · intro k v
    show (k, some v) ∈
        KafkaProducer.outgoingHeaders (KafkaProducer.mergedHeaders hs opts) ↔ _
    rw [outgoingHeaders_eq_map]
    constructor
    · intro hmem
      rcases List.mem_map.mp hmem with ⟨kv, hkv, heq⟩
      cases kv with
      | mk k0 v0 =>
        simp only [Prod.mk.injEq, Option.some.injEq] at heq
        obtain ⟨h1, h2⟩ := heq
        subst h1
        subst h2
        exact hkv
    · intro hmem
      exact List.mem_map.mpr ⟨(k, v), hmem, rfl⟩

/-- Claim C7: dispatch happens with a bounded 10-second timeout; a
transport (or timeout) failure surfaces as an error carrying the
underlying cause, and success carries no payload, only the unit
confirmation. -/
theorem send_bounded_timeout_wraps_errors (p : KafkaProducer) (key : String)
    (hs : RawHeaders) (pl : List Nat) (opts : KafkaProducerOptions) :
    (Duration.fromSecs 10).secs = 10 ∧
    (∀ conf : Int × Int,
      p.producer (p.sendRecord key hs pl opts) (Duration.fromSecs 10) = .ok conf →
      p.send key hs pl opts = .ok ()) ∧
    (∀ (e : KafkaError) (record : FutureRecord),
      p.producer (p.sendRecord key hs pl opts) (Duration.fromSecs 10) =
          .error (e, record) →
      p.send key hs pl opts = .error e) := by
  refine ⟨rfl, ?_, ?_⟩ <;> intros <;> simp_all [KafkaProducer.send]

/-- Witness for C7: a transport that times out produces the wrapped
timeout error; a confirming transport produces the unit success. -/
theorem send_bounded_timeout_wraps_errors_witness :
    demoProducerTimedOut.send "k" ∅ [] KafkaProducerOptions.default =
      .error KafkaError.messageTimedOut ∧
    demoProducerOk.send "k" ∅ [] KafkaProducerOptions.default = .ok () :=
  ⟨(send_bounded_timeout_wraps_errors demoProducerTimedOut "k" ∅ [] _).2.2
      KafkaError.messageTimedOut
      (demoProducerTimedOut.sendRecord "k" ∅ [] KafkaProducerOptions.default) rfl,
    (send_bounded_timeout_wraps_errors demoProducerOk "k" ∅ [] _).2.1 (0, 42) rfl⟩

/-- Claim C10: the default-constructed options are an identity for
`send`'s preprocessing — the merge step returns the base header
mapping unchanged and the built record goes to the producer's
configured default topic with exactly those headers. -/
theorem default_options_identity (p : KafkaProducer) (key : String)
    (hs : RawHeaders) (pl : List Nat) :
    KafkaProducer.mergedHeaders hs KafkaProducerOptions.default = hs ∧
    p.sendRecord key hs pl KafkaProducerOptions.default =
      { topic := p.topic, key := key,
        headers := KafkaProducer.outgoingHeaders hs, payload := pl } :=
  ⟨rfl, rfl⟩


end Convoy
